import Mathlib

/-!
Shallow embedding of `jules-scratch/verification/verify_footer.py`.

The script drives a headless browser (Playwright, sync API) against a local
`index.html`.  We model:

* the DOM visible to the script as a flat list of `Element` records, each
  carrying the attributes the script's selectors can inspect (tag, id,
  classes, ARIA role and accessible name, data attributes, rendered text,
  current input value, computed visibility, and the ids of its ancestors —
  the last encodes containment, used for locators chained off a container);
* every locator expression actually occurring in the script as a `Selector`;
  locator resolution (`resolve`) filters the DOM, mirroring Playwright's
  deferred, re-evaluated queries;
* the page under test as a black box `PageModel`: what DOM a navigation
  yields (`load`, `none` modelling a navigation error) and how the page's
  own scripts rewrite the DOM in reaction to a click (`clickEffect`).
  `fill` is not a black box: Playwright's `fill` sets the control's value,
  replacing prior content, which `setVal` models directly;
* the script body as the fixed command list `script`, executed by `runCmds`
  which stops at the first failing step (Playwright assertions and actions
  raise on failure, aborting the Python function), accumulating an event
  trace.  `expect(...).to_be_visible()` succeeds only on a unique, visible
  match (strict mode); `expect(locator.first).to_be_hidden()` succeeds when
  there is no match or the first match is not visible.  Text matching
  (`has_text=`, `get_by_text(..., exact=False)`, the `name=` of
  `get_by_role`) is modelled as Playwright specifies its non-exact
  matchers: a case-insensitive, whitespace-normalising substring search
  (`textContains`), with case folding modelled on the ASCII range.
* `run_verification` wraps the body the way `with sync_playwright() as p:`
  does: Python guarantees the context manager's exit handler runs on every
  exit path, and Playwright's stop closes every browser launched through
  it; the wrapper therefore appends a `stopPlaywright` event on all paths.
-/

namespace VerifyFooter

/-- Character-list prefix test, used to implement substring containment. -/
def charsPrefixEq : List Char → List Char → Bool
  | [], _ => true
  | _ :: _, [] => false
  | p :: ps, c :: cs => p == c && charsPrefixEq ps cs

/-- Does the character list contain `p` as a contiguous sublist? -/
def charsContain (p : List Char) : List Char → Bool
  | [] => charsPrefixEq p []
  | c :: cs => charsPrefixEq p (c :: cs) || charsContain p cs

/-- Exact substring containment on strings (Python `in`). -/
def strContains (s pat : String) : Bool := charsContain pat.data s.data

/-- Case folding of one character, on the ASCII range (the matcher's
case-insensitivity; the non-ASCII characters of the script's texts are
compared as they are). -/
def foldChar (c : Char) : Char := c.toLower

/-- Split a character list into its maximal whitespace-free words. -/
def wsWords (acc : List Char) : List Char → List (List Char)
  | [] => if acc.isEmpty then [] else [acc.reverse]
  | c :: cs =>
    if c.isWhitespace then
      if acc.isEmpty then wsWords [] cs else acc.reverse :: wsWords [] cs
    else wsWords (c :: acc) cs

/-- Join words with single spaces. -/
def joinWords : List (List Char) → List Char
  | [] => []
  | [w] => w
  | w :: ws => w ++ ' ' :: joinWords ws

/-- Normalise text the way Playwright's text matchers do: case folding and
whitespace normalisation (trim, collapse every whitespace run to one
space). -/
def normChars (l : List Char) : List Char := joinWords (wsWords [] (l.map foldChar))

/-- Playwright non-exact text matching, as used by `has_text=`,
`get_by_text(..., exact=False)` and the `name=` of `get_by_role`:
case-insensitive, whitespace-normalising substring search. -/
def textContains (txt pat : String) : Bool :=
  charsContain (normChars pat.data) (normChars txt.data)

/-- Does the string start with `p`? -/
def strStartsWith (s p : String) : Bool := charsPrefixEq p.data s.data

/-- Does the string end with a path separator? -/
def strEndsWithSlash (s : String) : Bool := s.data.getLast? == some '/'

/-- Model of `os.path.join(a, b)` (POSIX, two arguments): an absolute second
component replaces the first; otherwise the components are joined, inserting
a separator unless the first is empty or already ends in one. -/
def osPathJoin (a b : String) : String :=
  if strStartsWith b "/" then b
  else if a.data.isEmpty || strEndsWithSlash a then a ++ b
  else a ++ "/" ++ b

/-- The URL the script navigates to: the f-string
`f'file://{file_path}'` over `os.path.join(os.getcwd(), 'index.html')`. -/
def fileUrl (cwd : String) : String := "file://" ++ osPathJoin cwd "index.html"

/-- A DOM element as observable through the script's locators. -/
structure Element where
  tag : String
  elemId : String
  classes : List String
  role : String
  accName : String
  dataAttrs : List (String × String)
  text : String
  value : String
  visible : Bool
  ancestorIds : List String
deriving DecidableEq, Repr

/-- A page snapshot: the elements currently in the document. -/
abbrev Dom := List Element

/-- The locator expressions occurring in the script. -/
inductive Selector where
  | cssClass (c : String)
  | tagHasText (tag : String) (t : String)
  | byRole (r : String) (n : String)
  | cssId (i : String)
  | dataAttrPair (p : String × String) (q : String × String)
  | textWithin (containerId : String) (t : String)
deriving DecidableEq, Repr

/-- Does an element match a selector?  `textWithin` is a locator chained
off the element with the given id, so it requires that id among the
element's ancestors. -/
def selMatches : Selector → Element → Bool
  | .cssClass c, e => e.classes.contains c
  | .tagHasText tg t, e => e.tag == tg && textContains e.text t
  | .byRole r n, e => e.role == r && textContains e.accName n
  | .cssId i, e => e.elemId == i
  | .dataAttrPair p q, e => e.dataAttrs.contains p && e.dataAttrs.contains q
  | .textWithin cid t, e => e.ancestorIds.contains cid && textContains e.text t

/-- Resolve a locator against the current DOM (Playwright re-evaluates the
query each time it is used). -/
def resolve (d : Dom) (s : Selector) : List Element := d.filter (selMatches s)

/-- `page.locator(".animate-pulse")`. -/
def pulseSel : Selector := .cssClass "animate-pulse"

/-- `page.locator("summary", has_text="Calculadoras")`. -/
def calcSectionSel : Selector := .tagHasText "summary" "Calculadoras"

/-- `page.get_by_role("button", name="Férias")`. -/
def feriasSel : Selector := .byRole "button" "Férias"

/-- `page.locator("#ferias-salarioBruto")`. -/
def salarioSel : Selector := .cssId "ferias-salarioBruto"

/-- `page.locator('[data-action="calculate-now"][data-calc="ferias"]')`. -/
def calcBtnSel : Selector :=
  .dataAttrPair ("data-action", "calculate-now") ("data-calc", "ferias")

/-- `page.locator("#ferias-results")`. -/
def resultsSel : Selector := .cssId "ferias-results"

/-- The literal legal-notice string of the script. -/
def legalNoticeText : String :=
  "Valores aproximados para orientação, não substitui assessoria jurídica."

/-- `results_container.get_by_text(legal_notice_text, exact=False)`. -/
def legalSel : Selector := .textWithin "ferias-results" legalNoticeText

/-- The fixed screenshot output path of the script. -/
def pngPath : String := "jules-scratch/verification/verification.png"

/-- The page under test, as a black box: the DOM a navigation produces
(`none` = navigation error) and the page's reaction to clicking an element. -/
structure PageModel where
  load : String → Option Dom
  clickEffect : Dom → Element → Dom

/-- Observable events of a run. -/
inductive Event where
  | launch
  | newPage
  | goto (url : String)
  | checked (d : Dom) (s : Selector) (k : Bool)
  | click (s : Selector)
  | fill (s : Selector) (v : String)
  | screenshot (s : Selector) (path : String)
  | closeBrowser
  | stopPlaywright
deriving DecidableEq, Repr

/-- Errors a step can raise (Playwright timeouts / strict-mode violations,
surfaced as raised exceptions in the Python script). -/
inductive Err where
  | navigationError (url : String)
  | notVisible (s : Selector)
  | notHidden (s : Selector)
  | strictViolation (s : Selector)
deriving DecidableEq, Repr

/-- The commands the script issues, in source order. -/
inductive Cmd where
  | launch
  | newPage
  | goto
  | waitHiddenFirst (s : Selector)
  | expectVisible (s : Selector)
  | click (s : Selector)
  | fill (s : Selector) (v : String)
  | screenshot (s : Selector) (path : String)
  | closeBrowser
deriving DecidableEq, Repr

/-- `expect(loc).to_be_visible()`: succeeds on a unique, visible match. -/
def visibleCheck (d : Dom) (s : Selector) : Bool :=
  match resolve d s with
  | [e] => e.visible
  | _ => false

/-- `expect(loc.first).to_be_hidden()`: succeeds when nothing matches or
the first match is not visible. -/
def hiddenFirstCheck (d : Dom) (s : Selector) : Bool :=
  match resolve d s with
  | [] => true
  | e :: _ => !e.visible

/-- The check an assertion event records: `k = true` is a to-be-visible
check, `k = false` a to-be-hidden check on the locator's first match. -/
def assertHolds (k : Bool) (d : Dom) (s : Selector) : Bool :=
  if k then visibleCheck d s else hiddenFirstCheck d s

/-- Which error a failed to-be-visible assertion raises. -/
def expectVisErr (d : Dom) (s : Selector) : Err :=
  match resolve d s with
  | _ :: _ :: _ => .strictViolation s
  | _ => .notVisible s

/-- Playwright `fill` semantics: set the matched control's value,
replacing any prior content. -/
def setVal (d : Dom) (s : Selector) (v : String) : Dom :=
  d.map (fun e => if selMatches s e then { e with value := v } else e)

/-- Result of one step: events emitted, the resulting DOM, and whether the
step raised. -/
structure StepOut where
  events : List Event
  newDom : Dom
  err : Option Err
deriving Repr

/-- One step of the script.  Actions (`click`, `fill`, `screenshot`) require
a unique, visible match (Playwright strict mode + actionability); the goto
logs its navigation attempt even when it fails. -/
def stepOut (M : PageModel) (cwd : String) (d : Dom) : Cmd → StepOut
  | .launch => ⟨[.launch], d, none⟩
  | .newPage => ⟨[.newPage], d, none⟩
  | .goto =>
    match M.load (fileUrl cwd) with
    | some d2 => ⟨[.goto (fileUrl cwd)], d2, none⟩
    | none => ⟨[.goto (fileUrl cwd)], d, some (.navigationError (fileUrl cwd))⟩
  | .waitHiddenFirst s =>
    if hiddenFirstCheck d s then ⟨[.checked d s false], d, none⟩
    else ⟨[], d, some (.notHidden s)⟩
  | .expectVisible s =>
    if visibleCheck d s then ⟨[.checked d s true], d, none⟩
    else ⟨[], d, some (expectVisErr d s)⟩
  | .click s =>
    match resolve d s with
    | [e] =>
      if e.visible then ⟨[.click s], M.clickEffect d e, none⟩
      else ⟨[], d, some (.notVisible s)⟩
    | [] => ⟨[], d, some (.notVisible s)⟩
    | _ => ⟨[], d, some (.strictViolation s)⟩
  | .fill s v =>
    match resolve d s with
    | [e] =>
      if e.visible then ⟨[.fill s v], setVal d s v, none⟩
      else ⟨[], d, some (.notVisible s)⟩
    | [] => ⟨[], d, some (.notVisible s)⟩
    | _ => ⟨[], d, some (.strictViolation s)⟩
  | .screenshot s path =>
    match resolve d s with
    | [e] =>
      if e.visible then ⟨[.screenshot s path], d, none⟩
      else ⟨[], d, some (.notVisible s)⟩
    | [] => ⟨[], d, some (.notVisible s)⟩
    | _ => ⟨[], d, some (.strictViolation s)⟩
  | .closeBrowser => ⟨[.closeBrowser], d, none⟩

/-- Run a command list, aborting at the first raised error (the first
failing Playwright assertion or action raises and unwinds the function). -/
def runCmds (M : PageModel) (cwd : String) :
    Dom → List Event → List Cmd → List Event × Dom × Option Err
  | d, tr, [] => (tr, d, none)
  | d, tr, c :: cs =>
    match (stepOut M cwd d c).err with
    | none => runCmds M cwd (stepOut M cwd d c).newDom (tr ++ (stepOut M cwd d c).events) cs
    | some e => (tr ++ (stepOut M cwd d c).events, d, some e)

/-- The body of `run_verification`, in source order. -/
def script : List Cmd :=
  [ .launch, .newPage, .goto,
    .waitHiddenFirst pulseSel,
    .expectVisible calcSectionSel, .click calcSectionSel,
    .expectVisible feriasSel, .click feriasSel,
    .expectVisible salarioSel, .fill salarioSel "5000.00",
    .expectVisible calcBtnSel, .click calcBtnSel,
    .expectVisible resultsSel,
    .expectVisible legalSel,
    .screenshot resultsSel pngPath,
    .closeBrowser ]

/-- Outcome of a run: the full event trace, the final DOM, and the raised
error, if any. -/
structure RunOutcome where
  trace : List Event
  dom : Dom
  err : Option Err
deriving DecidableEq, Repr

/-- The whole of `run_verification`: the body under
`with sync_playwright() as p:`.  Python runs the context manager's exit
handler on every exit path, and Playwright's stop closes every browser
launched through it, so a `stopPlaywright` event is appended on all paths;
an uncaught step error propagates out as `err`. -/
def run_verification (M : PageModel) (cwd : String) : RunOutcome :=
  { trace := (runCmds M cwd [] [] script).1 ++ [Event.stopPlaywright]
    dom := (runCmds M cwd [] [] script).2.1
    err := (runCmds M cwd [] [] script).2.2 }

/-- The module's top level executed with `__name__` as given: the only
statement beyond imports and the function definition is the
`if __name__ == "__main__": run_verification()` guard. -/
def moduleToplevel (isMain : Bool) (M : PageModel) (cwd : String) : Option RunOutcome :=
  if isMain then some (run_verification M cwd) else none

/-- Events performed by executing the module top level. -/
def moduleEffects (isMain : Bool) (M : PageModel) (cwd : String) : List Event :=
  match moduleToplevel isMain M cwd with
  | some o => o.trace
  | none => []

/-- Script entry point with the process inputs it could in principle see:
the source reads neither `sys.argv` nor `os.environ`, so neither parameter
occurs in the body. -/
def scriptMain (argv : List String) (env : List (String × String))
    (M : PageModel) (cwd : String) : RunOutcome :=
  run_verification M cwd

/-- Event classifiers used to state trace properties. -/
def isGoto : Event → Bool
  | .goto _ => true
  | _ => false

/-- Is the event the opening of a page? -/
def isNewPage : Event → Bool
  | .newPage => true
  | _ => false

/-- Is the event a recorded assertion check? -/
def isChecked : Event → Bool
  | .checked _ _ _ => true
  | _ => false

/-- Is the event a form fill? -/
def isFill : Event → Bool
  | .fill _ _ => true
  | _ => false

/-- Does a recorded check hold of the snapshot it was checked against? -/
def checkOk : Event → Bool
  | .checked d s k => assertHolds k d s
  | _ => true

/-- The files a trace persists (paths of its screenshot events). -/
def writesOf (tr : List Event) : List String :=
  tr.filterMap (fun ev => match ev with
    | .screenshot _ p => some p
    | _ => none)

/-- Writing a file: the path now exists; an existing file is overwritten,
never an error. -/
def writeFile (fs : String → Bool) (p : String) : String → Bool :=
  fun q => q == p || fs q

/-- Apply all writes of a trace to a file-system abstraction. -/
def applyWrites (tr : List Event) (fs : String → Bool) : String → Bool :=
  (writesOf tr).foldl writeFile fs

/-- Helper to build concrete elements. -/
def el0 : Element :=
  { tag := "", elemId := "", classes := [], role := "", accName := ""
    dataAttrs := [], text := "", value := "", visible := true, ancestorIds := [] }

/-- Concrete page: the sidebar's "Calculadoras" disclosure control. -/
def navSummary : Element :=
  { el0 with tag := "summary", elemId := "nav-calcs",
             text := "Calculadoras", ancestorIds := ["sidebar"] }

/-- Concrete page: the "Férias" navigation button. -/
def feriasBtn : Element :=
  { el0 with tag := "button", elemId := "btn-ferias", role := "button",
             accName := "Férias", text := "Férias", ancestorIds := ["sidebar"] }

/-- Concrete page: the gross-salary input. -/
def salarioInput : Element :=
  { el0 with tag := "input", elemId := "ferias-salarioBruto",
             ancestorIds := ["ferias-form"] }

/-- Concrete page: the calculate trigger. -/
def calcBtn : Element :=
  { el0 with tag := "button", role := "button", accName := "Calcular",
             dataAttrs := [("data-action", "calculate-now"), ("data-calc", "ferias")],
             ancestorIds := ["ferias-form"] }

/-- Concrete page: the results container. -/
def resultsBox : Element :=
  { el0 with tag := "div", elemId := "ferias-results",
             text := "Resultado do cálculo", ancestorIds := ["main"] }

/-- Concrete page: the legal-notice paragraph inside the results container. -/
def legalP : Element :=
  { el0 with tag := "p", text := legalNoticeText,
             ancestorIds := ["main", "ferias-results"] }

/-- Concrete click behaviour of a well-formed page: the summary reveals the
Férias button, the Férias button reveals the form, the calculate trigger
renders the results and the legal notice. -/
def goodClick (d : Dom) (e : Element) : Dom :=
  if e.tag == "summary" then d ++ [feriasBtn]
  else if e.accName == "Férias" then d ++ [salarioInput, calcBtn]
  else if selMatches calcBtnSel e then d ++ [resultsBox, legalP]
  else d

/-- A well-formed page on which every scripted step succeeds. -/
def Mgood : PageModel :=
  { load := fun _ => some [navSummary], clickEffect := goodClick }

/-- A page whose sidebar loads but which never exposes a "Férias" button. -/
def MnoFerias : PageModel :=
  { load := fun _ => some [navSummary], clickEffect := fun d _ => d }

/-- A results container whose legal-notice element carries the exact
disclaimer text but is not visible. -/
def dBadHidden : Dom :=
  [resultsBox, { legalP with visible := false }]

/-- A disclaimer whose ASCII letters are upper-cased: not an exact
substring match for the literal disclaimer text, but equal to it after
the matcher's case folding and whitespace normalisation. -/
def legalUpperP : Element :=
  { el0 with tag := "p",
             text := "VALORES APROXIMADOS PARA ORIENTAçãO, NãO SUBSTITUI ASSESSORIA JURíDICA.",
             ancestorIds := ["main", "ferias-results"] }

/-- A results container holding only the upper-cased disclaimer. -/
def dUpper : Dom := [resultsBox, legalUpperP]

/-- Is the command the navigation command? -/
def isGotoCmd : Cmd → Bool
  | .goto => true
  | _ => false

/-- Is the command the page-opening command? -/
def isNewPageCmd : Cmd → Bool
  | .newPage => true
  | _ => false

/-- If the command records a hidden-wait, its selector is the loading
placeholder; used to show the scripted sequence waits-hidden only there. -/
def cmdHiddenOnlyPulse : Cmd → Bool
  | .waitHiddenFirst s => decide (s = pulseSel)
  | _ => true

/-- If the command is a form fill, it is the scripted salary fill. -/
def cmdFillOk : Cmd → Bool
  | .fill s v => decide (s = salarioSel) && decide (v = "5000.00")
  | _ => true

/-- The complete event trace of a raising-free run, as a function of the
page snapshots observed along the way: `d0` after navigation, `d1` after
expanding the section, `d2` after selecting the calculator, `d3` after
triggering the calculation. -/
def successTrace (cwd : String) (d0 d1 d2 d3 : Dom) : List Event :=
  [ .launch, .newPage, .goto (fileUrl cwd),
    .checked d0 pulseSel false,
    .checked d0 calcSectionSel true,
    .click calcSectionSel,
    .checked d1 feriasSel true,
    .click feriasSel,
    .checked d2 salarioSel true,
    .fill salarioSel "5000.00",
    .checked (setVal d2 salarioSel "5000.00") calcBtnSel true,
    .click calcBtnSel,
    .checked d3 resultsSel true,
    .checked d3 legalSel true,
    .screenshot resultsSel pngPath,
    .closeBrowser,
    .stopPlaywright ]

/-- Soundness of a recorded check event: a passed to-be-visible check had a
unique visible match, a passed hidden-wait was the loading-placeholder wait
and had no match or an invisible first match. -/
def checkedSound (ev : Event) : Prop :=
  (∀ d s, ev = Event.checked d s true → ∃ e, resolve d s = [e] ∧ e.visible = true) ∧
  (∀ d s, ev = Event.checked d s false → s = pulseSel ∧
    (resolve d s = [] ∨ ∃ e tl, resolve d s = e :: tl ∧ e.visible = false))

/-- Every fill event of the script targets the salary input with the
literal value. -/
def fillSound (ev : Event) : Prop :=
  ∀ s v, ev = Event.fill s v → s = salarioSel ∧ v = "5000.00"

/-- The scripted commands after the navigation. -/
def scriptTail : List Cmd :=
  [ .waitHiddenFirst pulseSel,
    .expectVisible calcSectionSel, .click calcSectionSel,
    .expectVisible feriasSel, .click feriasSel,
    .expectVisible salarioSel, .fill salarioSel "5000.00",
    .expectVisible calcBtnSel, .click calcBtnSel,
    .expectVisible resultsSel,
    .expectVisible legalSel,
    .screenshot resultsSel pngPath,
    .closeBrowser ]

/-! ### Basic lemmas about checks and locator resolution -/

theorem visibleCheck_true {d : Dom} {s : Selector} (h : visibleCheck d s = true) :
    ∃ e, resolve d s = [e] ∧ e.visible = true := by
  unfold visibleCheck at h
  split at h
  · next e heq => exact ⟨e, heq, h⟩
  · exact absurd h (by simp)

theorem visibleCheck_of_unique {d : Dom} {s : Selector} {e : Element}
    (h1 : resolve d s = [e]) (h2 : e.visible = true) : visibleCheck d s = true := by
  unfold visibleCheck
  rw [h1]
  exact h2

theorem hiddenFirstCheck_true {d : Dom} {s : Selector} (h : hiddenFirstCheck d s = true) :
    resolve d s = [] ∨ ∃ e tl, resolve d s = e :: tl ∧ e.visible = false := by
  unfold hiddenFirstCheck at h
  split at h
  · next heq => exact Or.inl heq
  · next e tl heq => exact Or.inr ⟨e, tl, heq, by simpa using h⟩

theorem selMatches_setVal (s : Selector) (v : String) (e : Element) :
    selMatches s { e with value := v } = selMatches s e := by
  cases s <;> rfl

theorem resolve_setVal_value (d : Dom) (s : Selector) (v : String) :
    ∀ e ∈ resolve (setVal d s v) s, e.value = v := by
  intro e he
  rw [resolve, List.mem_filter] at he
  obtain ⟨hmem, hmatch⟩ := he
  rw [setVal, List.mem_map] at hmem
  obtain ⟨a, _, heq⟩ := hmem
  by_cases hsa : selMatches s a = true
  · rw [if_pos hsa] at heq
    subst heq
    rfl
  · rw [if_neg hsa] at heq
    subst heq
    exact absurd hmatch hsa

/-! ### Generic lemmas about the interpreter -/

theorem stepOut_events_no_goto (M : PageModel) (cwd : String) (d : Dom) (c : Cmd)
    (hc : isGotoCmd c = false) :
    ((stepOut M cwd d c).events).filter isGoto = [] := by
  cases c with
  | goto => simp [isGotoCmd] at hc
  | launch => rfl
  | newPage => rfl
  | closeBrowser => rfl
  | waitHiddenFirst s => simp only [stepOut]; split <;> simp [isGoto]
  | expectVisible s => simp only [stepOut]; split <;> simp [isGoto]
  | click s => simp only [stepOut]; split <;> (try split) <;> simp [isGoto]
  | fill s v => simp only [stepOut]; split <;> (try split) <;> simp [isGoto]
  | screenshot s path => simp only [stepOut]; split <;> (try split) <;> simp [isGoto]

theorem stepOut_events_no_newPage (M : PageModel) (cwd : String) (d : Dom) (c : Cmd)
    (hc : isNewPageCmd c = false) :
    ((stepOut M cwd d c).events).filter isNewPage = [] := by
  cases c with
  | newPage => simp [isNewPageCmd] at hc
  | launch => rfl
  | closeBrowser => rfl
  | goto => simp only [stepOut]; split <;> simp [isNewPage]
  | waitHiddenFirst s => simp only [stepOut]; split <;> simp [isNewPage]
  | expectVisible s => simp only [stepOut]; split <;> simp [isNewPage]
  | click s => simp only [stepOut]; split <;> (try split) <;> simp [isNewPage]
  | fill s v => simp only [stepOut]; split <;> (try split) <;> simp [isNewPage]
  | screenshot s path => simp only [stepOut]; split <;> (try split) <;> simp [isNewPage]

theorem runCmds_filter_none (M : PageModel) (cwd : String) (p : Event → Bool) :
    ∀ (cs : List Cmd) (d : Dom) (tr : List Event),
      (∀ (d2 : Dom) (c : Cmd), c ∈ cs → ((stepOut M cwd d2 c).events).filter p = []) →
      ((runCmds M cwd d tr cs).1).filter p = tr.filter p := by
  intro cs
  induction cs with
  | nil => intro d tr _; simp [runCmds]
  | cons c cs ih =>
    intro d tr h
    simp only [runCmds]
    split
    · rw [ih _ _ (fun d2 c2 hc2 => h d2 c2 (List.mem_cons_of_mem _ hc2))]
      simp [List.filter_append, h d c (List.mem_cons_self _ _)]
    · simp [List.filter_append, h d c (List.mem_cons_self _ _)]

theorem runCmds_all (M : PageModel) (cwd : String) (P : Event → Prop) :
    ∀ (cs : List Cmd) (d : Dom) (tr : List Event),
      (∀ ev ∈ tr, P ev) →
      (∀ (d2 : Dom) (c : Cmd), c ∈ cs → ∀ ev ∈ (stepOut M cwd d2 c).events, P ev) →
      ∀ ev ∈ (runCmds M cwd d tr cs).1, P ev := by
  intro cs
  induction cs with
  | nil => intro d tr htr _; simpa [runCmds] using htr
  | cons c cs ih =>
    intro d tr htr h
    simp only [runCmds]
    split
    · refine ih _ _ ?_ (fun d2 c2 hc2 => h d2 c2 (List.mem_cons_of_mem _ hc2))
      intro ev hev
      rcases List.mem_append.mp hev with hev | hev
      · exact htr ev hev
      · exact h d c (List.mem_cons_self _ _) ev hev
    · intro ev hev
      rcases List.mem_append.mp hev with hev | hev
      · exact htr ev hev
      · exact h d c (List.mem_cons_self _ _) ev hev

theorem script_eq : script = Cmd.launch :: Cmd.newPage :: Cmd.goto :: scriptTail := rfl

theorem runCmds_cons_ok (M : PageModel) (cwd : String) (d : Dom) (tr : List Event)
    (c : Cmd) (cs : List Cmd) (h : (stepOut M cwd d c).err = none) :
    runCmds M cwd d tr (c :: cs)
      = runCmds M cwd (stepOut M cwd d c).newDom (tr ++ (stepOut M cwd d c).events) cs := by
  simp only [runCmds, h]

theorem runCmds_cons_err (M : PageModel) (cwd : String) (d : Dom) (tr : List Event)
    (c : Cmd) (cs : List Cmd) (e : Err) (h : (stepOut M cwd d c).err = some e) :
    runCmds M cwd d tr (c :: cs) = (tr ++ (stepOut M cwd d c).events, d, some e) := by
  simp only [runCmds, h]

theorem checkedSound_not (ev : Event) (h : isChecked ev = false) : checkedSound ev := by
  constructor <;> intro d s heq <;> subst heq <;> simp [isChecked] at h

theorem fillSound_not (ev : Event) (h : isFill ev = false) : fillSound ev := by
  intro s v heq
  subst heq
  simp [isFill] at h

theorem stepOut_checked_sound (M : PageModel) (cwd : String) (d : Dom) (c : Cmd)
    (hc : cmdHiddenOnlyPulse c = true) :
    ∀ ev ∈ (stepOut M cwd d c).events, checkedSound ev := by
  cases c with
  | launch =>
    intro ev hev
    simp only [stepOut, List.mem_singleton] at hev
    subst hev
    exact checkedSound_not _ rfl
  | newPage =>
    intro ev hev
    simp only [stepOut, List.mem_singleton] at hev
    subst hev
    exact checkedSound_not _ rfl
  | closeBrowser =>
    intro ev hev
    simp only [stepOut, List.mem_singleton] at hev
    subst hev
    exact checkedSound_not _ rfl
  | goto =>
    simp only [stepOut]
    split <;> (intro ev hev; simp only [List.mem_singleton] at hev; subst hev;
               exact checkedSound_not _ rfl)
  | waitHiddenFirst s =>
    have hs : s = pulseSel := by simpa [cmdHiddenOnlyPulse] using hc
    subst hs
    simp only [stepOut]
    split
    · next hchk =>
      intro ev hev
      simp only [List.mem_singleton] at hev
      subst hev
      refine ⟨fun d2 s2 heq => ?_, fun d2 s2 heq => ?_⟩
      · simp at heq
      · have h2 : d = d2 ∧ pulseSel = s2 := by simpa using heq
        obtain ⟨rfl, rfl⟩ := h2
        exact ⟨rfl, hiddenFirstCheck_true hchk⟩
    · intro ev hev
      simp at hev
  | expectVisible s =>
    simp only [stepOut]
    split
    · next hchk =>
      intro ev hev
      simp only [List.mem_singleton] at hev
      subst hev
      refine ⟨fun d2 s2 heq => ?_, fun d2 s2 heq => ?_⟩
      · have h2 : d = d2 ∧ s = s2 := by simpa using heq
        obtain ⟨rfl, rfl⟩ := h2
        exact visibleCheck_true hchk
      · simp at heq
    · intro ev hev
      simp at hev
  | click s =>
    simp only [stepOut]
    split <;> (try split) <;> intro ev hev <;>
      first
        | (simp only [List.mem_singleton] at hev; subst hev; exact checkedSound_not _ rfl)
        | simp at hev
  | fill s v =>
    simp only [stepOut]
    split <;> (try split) <;> intro ev hev <;>
      first
        | (simp only [List.mem_singleton] at hev; subst hev; exact checkedSound_not _ rfl)
        | simp at hev
  | screenshot s path =>
    simp only [stepOut]
    split <;> (try split) <;> intro ev hev <;>
      first
        | (simp only [List.mem_singleton] at hev; subst hev; exact checkedSound_not _ rfl)
        | simp at hev

theorem stepOut_fill_sound (M : PageModel) (cwd : String) (d : Dom) (c : Cmd)
    (hc : cmdFillOk c = true) :
    ∀ ev ∈ (stepOut M cwd d c).events, fillSound ev := by
  cases c with
  | launch =>
    intro ev hev
    simp only [stepOut, List.mem_singleton] at hev
    subst hev
    exact fillSound_not _ rfl
  | newPage =>
    intro ev hev
    simp only [stepOut, List.mem_singleton] at hev
    subst hev
    exact fillSound_not _ rfl
  | closeBrowser =>
    intro ev hev
    simp only [stepOut, List.mem_singleton] at hev
    subst hev
    exact fillSound_not _ rfl
  | goto =>
    simp only [stepOut]
    split <;> (intro ev hev; simp only [List.mem_singleton] at hev; subst hev;
               exact fillSound_not _ rfl)
  | waitHiddenFirst s =>
    simp only [stepOut]
    split <;> intro ev hev <;>
      first
        | (simp only [List.mem_singleton] at hev; subst hev; exact fillSound_not _ rfl)
        | simp at hev
  | expectVisible s =>
    simp only [stepOut]
    split <;> intro ev hev <;>
      first
        | (simp only [List.mem_singleton] at hev; subst hev; exact fillSound_not _ rfl)
        | simp at hev
  | click s =>
    simp only [stepOut]
    split <;> (try split) <;> intro ev hev <;>
      first
        | (simp only [List.mem_singleton] at hev; subst hev; exact fillSound_not _ rfl)
        | simp at hev
  | screenshot s path =>
    simp only [stepOut]
    split <;> (try split) <;> intro ev hev <;>
      first
        | (simp only [List.mem_singleton] at hev; subst hev; exact fillSound_not _ rfl)
        | simp at hev
  | fill s v =>
    obtain ⟨hs, hv⟩ : s = salarioSel ∧ v = "5000.00" := by
      simpa [cmdFillOk] using hc
    subst hs
    subst hv
    simp only [stepOut]
    split <;> (try split) <;> intro ev hev <;>
      first
        | (simp only [List.mem_singleton] at hev; subst hev;
           intro s2 v2 heq;
           have h2 : salarioSel = s2 ∧ "5000.00" = v2 := by simpa using heq;
           obtain ⟨rfl, rfl⟩ := h2;
           exact ⟨rfl, rfl⟩)
        | simp at hev

/-- A raising-free run fixed every branch of the interpreter: the page
loaded, the placeholder check passed, every locator of the six visibility
assertions resolved to a unique visible element, and the trace is exactly
the seventeen-event `successTrace`. -/
theorem run_success_shape (M : PageModel) (cwd : String)
    (h : (run_verification M cwd).err = none) :
    ∃ d0 e1 e2 e3 e4 d3,
      M.load (fileUrl cwd) = some d0 ∧
      hiddenFirstCheck d0 pulseSel = true ∧
      resolve d0 calcSectionSel = [e1] ∧ e1.visible = true ∧
      resolve (M.clickEffect d0 e1) feriasSel = [e2] ∧ e2.visible = true ∧
      resolve (M.clickEffect (M.clickEffect d0 e1) e2) salarioSel = [e3] ∧
      e3.visible = true ∧
      resolve (setVal (M.clickEffect (M.clickEffect d0 e1) e2) salarioSel "5000.00")
        calcBtnSel = [e4] ∧
      e4.visible = true ∧
      d3 = M.clickEffect
        (setVal (M.clickEffect (M.clickEffect d0 e1) e2) salarioSel "5000.00") e4 ∧
      visibleCheck d3 resultsSel = true ∧
      visibleCheck d3 legalSel = true ∧
      (run_verification M cwd).trace
        = successTrace cwd d0 (M.clickEffect d0 e1)
            (M.clickEffect (M.clickEffect d0 e1) e2) d3 := by
  simp only [run_verification] at h
  cases hL : M.load (fileUrl cwd) with
  | none => simp [script, runCmds, stepOut, hL] at h
  | some d0 =>
  cases hH : hiddenFirstCheck d0 pulseSel with
  | false => simp [script, runCmds, stepOut, hL, hH] at h
  | true =>
  cases hV1 : visibleCheck d0 calcSectionSel with
  | false => simp [script, runCmds, stepOut, hL, hH, hV1] at h
  | true =>
  obtain ⟨e1, hr1, hb1⟩ := visibleCheck_true hV1
  cases hV2 : visibleCheck (M.clickEffect d0 e1) feriasSel with
  | false => simp [script, runCmds, stepOut, hL, hH, hV1, hr1, hb1, hV2] at h
  | true =>
  obtain ⟨e2, hr2, hb2⟩ := visibleCheck_true hV2
  cases hV3 : visibleCheck (M.clickEffect (M.clickEffect d0 e1) e2) salarioSel with
  | false => simp [script, runCmds, stepOut, hL, hH, hV1, hr1, hb1, hV2, hr2, hb2, hV3] at h
  | true =>
  obtain ⟨e3, hr3, hb3⟩ := visibleCheck_true hV3
  cases hV4 : visibleCheck
      (setVal (M.clickEffect (M.clickEffect d0 e1) e2) salarioSel "5000.00") calcBtnSel with
  | false =>
    simp [script, runCmds, stepOut, hL, hH, hV1, hr1, hb1, hV2, hr2, hb2, hV3,
      hr3, hb3, hV4] at h
  | true =>
  obtain ⟨e4, hr4, hb4⟩ := visibleCheck_true hV4
  cases hV5 : visibleCheck
      (M.clickEffect (setVal (M.clickEffect (M.clickEffect d0 e1) e2) salarioSel "5000.00") e4)
      resultsSel with
  | false =>
    simp [script, runCmds, stepOut, hL, hH, hV1, hr1, hb1, hV2, hr2, hb2, hV3,
      hr3, hb3, hV4, hr4, hb4, hV5] at h
  | true =>
  obtain ⟨e5, hr5, hb5⟩ := visibleCheck_true hV5
  cases hV6 : visibleCheck
      (M.clickEffect (setVal (M.clickEffect (M.clickEffect d0 e1) e2) salarioSel "5000.00") e4)
      legalSel with
  | false =>
    simp [script, runCmds, stepOut, hL, hH, hV1, hr1, hb1, hV2, hr2, hb2, hV3,
      hr3, hb3, hV4, hr4, hb4, hV5, hr5, hb5, hV6] at h
  | true =>
  refine ⟨d0, e1, e2, e3, e4, _, rfl, hH, hr1, hb1, hr2, hb2, hr3, hb3, hr4, hb4,
    rfl, hV5, hV6, ?_⟩
  simp [run_verification, script, runCmds, stepOut, successTrace, hL, hH, hV1, hr1, hb1,
    hV2, hr2, hb2, hV3, hr3, hb3, hV4, hr4, hb4, hV5, hr5, hb5, hV6]

/-! ### Claim theorems -/

/-- Claim C9: the script's behaviour is independent of command-line
arguments and environment variables — for the same working directory and
page model, arbitrary differing argv and environment yield the identical
run outcome (the source reads neither `sys.argv` nor `os.environ`). -/
theorem C9_independent_of_argv_env (argv1 argv2 : List String)
    (env1 env2 : List (String × String)) (M : PageModel) (cwd : String) :
    scriptMain argv1 env1 M cwd = scriptMain argv2 env2 M cwd := rfl

/-- Claim C10: importing the module (executing its top level with
`__name__` not equal to `"__main__"`) performs no run at all and hence no
events — no browser launch, no navigation, no clicks, no file writes. -/
theorem C10_import_no_side_effects (M : PageModel) (cwd : String) :
    moduleToplevel false M cwd = none ∧ moduleEffects false M cwd = [] :=
  ⟨rfl, rfl⟩

/-- Claim C3: every run performs exactly one navigation, to the
file-scheme URL obtained by prefixing "file://" to the join of the current
working directory with "index.html"; no other navigation occurs. -/
theorem C3_single_navigation_to_file_url (M : PageModel) (cwd : String) :
    ((run_verification M cwd).trace).filter isGoto = [Event.goto (fileUrl cwd)] ∧
    fileUrl cwd = "file://" ++ osPathJoin cwd "index.html" := by
  refine ⟨?_, rfl⟩
  simp only [run_verification]
  have hall : ∀ c ∈ scriptTail, isGotoCmd c = false := by decide
  cases hL : M.load (fileUrl cwd) with
  | none =>
    rw [script_eq, runCmds_cons_ok _ _ _ _ Cmd.launch _ rfl,
        runCmds_cons_ok _ _ _ _ Cmd.newPage _ rfl,
        runCmds_cons_err _ _ _ _ Cmd.goto _ (Err.navigationError (fileUrl cwd))
          (by simp [stepOut, hL])]
    simp [stepOut, hL, isGoto, List.filter_append]
  | some d0 =>
    rw [script_eq, runCmds_cons_ok _ _ _ _ Cmd.launch _ rfl,
        runCmds_cons_ok _ _ _ _ Cmd.newPage _ rfl,
        runCmds_cons_ok _ _ _ _ Cmd.goto _ (by simp [stepOut, hL])]
    rw [List.filter_append,
        runCmds_filter_none M cwd isGoto scriptTail _ _
          (fun d2 c hc => stepOut_events_no_goto M cwd d2 c (hall c hc))]
    simp [stepOut, hL, isGoto, List.filter_append]

/-- Claim C5 (amended): the disclaimer assertion succeeds exactly when the
results-scoped text locator resolves to a unique element — one inside the
results container whose text, after the matcher's case folding and
whitespace normalisation, contains the normalised disclaimer string as a
substring — and that element is visible.  A differently worded disclaimer
(no such element) fails it, and the same text outside the container does
not count. -/
theorem C5_disclaimer_match_semantics (d : Dom) :
    (assertHolds true d legalSel = true ↔
      ∃ e, d.filter (fun e => e.ancestorIds.contains "ferias-results"
              && textContains e.text legalNoticeText) = [e] ∧ e.visible = true) ∧
    (∀ e ∈ d, selMatches legalSel e
        = (e.ancestorIds.contains "ferias-results" && textContains e.text legalNoticeText)) := by
  have hres : resolve d legalSel
      = d.filter (fun e => e.ancestorIds.contains "ferias-results"
          && textContains e.text legalNoticeText) := rfl
  constructor
  · rw [show assertHolds true d legalSel = visibleCheck d legalSel from rfl]
    constructor
    · intro h
      obtain ⟨e, he, hv⟩ := visibleCheck_true h
      exact ⟨e, by rw [← hres]; exact he, hv⟩
    · rintro ⟨e, he, hv⟩
      exact visibleCheck_of_unique (by rw [hres]; exact he) hv
  · intro e _
    rfl

/-- Claim C5, counterexample to the claim as stated ("succeeds exactly
when an element inside the results container contains the exact string as
a substring"), refuting both directions: a page whose results container
holds an element containing the exact disclaimer text as a substring yet
the assertion fails (the element is not visible), and a page holding no
exact-substring occurrence at all (the disclaimer's ASCII letters are
upper-cased) on which the case-insensitive matcher nevertheless succeeds. -/
theorem C5_counterexample :
    (dBadHidden.any (fun e => e.ancestorIds.contains "ferias-results"
        && strContains e.text legalNoticeText) = true ∧
      assertHolds true dBadHidden legalSel = false) ∧
    (dUpper.any (fun e => strContains e.text legalNoticeText) = false ∧
      assertHolds true dUpper legalSel = true) := by decide

/-- Claim C5, witness: on a page holding a unique visible element inside
the results container with the exact disclaimer text, the assertion
succeeds. -/
theorem C5_witness : assertHolds true [legalP] legalSel = true :=
  ((C5_disclaimer_match_semantics [legalP]).1).mpr ⟨legalP, by decide, by decide⟩

/-- Claim C6: on every exit path — normal completion, assertion failure,
or navigation error — the Playwright session is stopped (the `with`
statement guarantees the exit handler, which closes launched browsers);
on the raising-free path the explicit `browser.close()` also runs. -/
theorem C6_browser_session_released (M : PageModel) (cwd : String) :
    Event.stopPlaywright ∈ (run_verification M cwd).trace ∧
    ((run_verification M cwd).err = none →
      Event.closeBrowser ∈ (run_verification M cwd).trace) := by
  constructor
  · simp [run_verification]
  · intro h
    obtain ⟨d0, e1, e2, e3, e4, d3, _, _, _, _, _, _, _, _, _, _, _, _, _, htr⟩ :=
      run_success_shape M cwd h
    rw [htr]
    simp [successTrace]

/-- Claim C6, witness at the concrete well-formed page. -/
theorem C6_witness :
    Event.stopPlaywright ∈ (run_verification Mgood "d").trace ∧
    Event.closeBrowser ∈ (run_verification Mgood "d").trace :=
  ⟨(C6_browser_session_released Mgood "d").1,
   (C6_browser_session_released Mgood "d").2 (by decide)⟩

/-- Claim C1: when the page reached by the navigation passes the loading
wait and exposes the "Calculadoras" section, but after expanding it there
is no element with role button and accessible name "Férias", the run
raises at exactly that assertion, the salary field is never filled, and
no file is written — the first failing step aborts the whole run. -/
theorem C1_missing_ferias_button_aborts (M : PageModel) (cwd : String)
    (d0 : Dom) (c : Element)
    (h1 : M.load (fileUrl cwd) = some d0)
    (h2 : hiddenFirstCheck d0 pulseSel = true)
    (h3 : resolve d0 calcSectionSel = [c])
    (h4 : c.visible = true)
    (h5 : resolve (M.clickEffect d0 c) feriasSel = []) :
    (run_verification M cwd).err = some (Err.notVisible feriasSel) ∧
    ((run_verification M cwd).trace).filter isFill = [] ∧
    writesOf (run_verification M cwd).trace = [] := by
  have hV1 : visibleCheck d0 calcSectionSel = true := visibleCheck_of_unique h3 h4
  have hV2 : visibleCheck (M.clickEffect d0 c) feriasSel = false := by
    unfold visibleCheck
    rw [h5]
  have hE : expectVisErr (M.clickEffect d0 c) feriasSel = Err.notVisible feriasSel := by
    unfold expectVisErr
    rw [h5]
  refine ⟨?_, ?_, ?_⟩ <;>
    simp [run_verification, script, runCmds, stepOut, h1, h2, hV1, h3, h4, hV2, hE,
      isFill, writesOf, List.filter_append]

/-- Claim C1, witness: a concrete page that loads its sidebar but never
exposes a Férias button. -/
theorem C1_witness :
    (run_verification MnoFerias "d").err = some (Err.notVisible feriasSel) ∧
    ((run_verification MnoFerias "d").trace).filter isFill = [] ∧
    writesOf (run_verification MnoFerias "d").trace = [] :=
  C1_missing_ferias_button_aborts MnoFerias "d" [navSummary] navSummary
    (by decide) (by decide) (by decide) (by decide) (by decide)

/-- Claim C2 (amended): a run that returns without raising checked exactly
seven visibility/content assertions (not nine), and every recorded check
held of the page snapshot it was checked against. -/
theorem C2_all_assertions_held (M : PageModel) (cwd : String)
    (h : (run_verification M cwd).err = none) :
    (((run_verification M cwd).trace).filter isChecked).length = 7 ∧
    ∀ ev ∈ (run_verification M cwd).trace, checkOk ev = true := by
  obtain ⟨d0, e1, e2, e3, e4, d3, hL, hH, hr1, hb1, hr2, hb2, hr3, hb3, hr4, hb4,
    hd3, hV5, hV6, htr⟩ := run_success_shape M cwd h
  have hV1 := visibleCheck_of_unique hr1 hb1
  have hV2 := visibleCheck_of_unique hr2 hb2
  have hV3 := visibleCheck_of_unique hr3 hb3
  have hV4 := visibleCheck_of_unique hr4 hb4
  rw [htr]
  constructor
  · simp [successTrace, isChecked]
  · intro ev hev
    simp only [successTrace, List.mem_cons, List.not_mem_nil, or_false] at hev
    rcases hev with rfl|rfl|rfl|rfl|rfl|rfl|rfl|rfl|rfl|rfl|rfl|rfl|rfl|rfl|rfl|rfl|rfl <;>
      simp [checkOk, assertHolds, hH, hV1, hV2, hV3, hV4, hV5, hV6]

/-- Claim C2, counterexample to the claim as stated: a concrete run that
returns without raising performed seven scripted assertions, not nine. -/
theorem C2_counterexample :
    (run_verification Mgood "d").err = none ∧
    (((run_verification Mgood "d").trace).filter isChecked).length = 7 ∧
    ¬((((run_verification Mgood "d").trace).filter isChecked).length = 9) := by
  decide

/-- Claim C2, witness at the concrete well-formed page. -/
theorem C2_witness :
    (((run_verification Mgood "d").trace).filter isChecked).length = 7 ∧
    ∀ ev ∈ (run_verification Mgood "d").trace, checkOk ev = true :=
  C2_all_assertions_held Mgood "d" (by decide)

/-- Claim C4: in every run, any fill targets the input with stable id
"ferias-salarioBruto" and the literal value "5000.00"; and in a
raising-free run the salary input is asserted visible, then filled —
its value afterwards being "5000.00" whatever it held before — and only
then is the calculate trigger clicked. -/
theorem C4_salary_filled_before_calculate (M : PageModel) (cwd : String) :
    (∀ s v, Event.fill s v ∈ (run_verification M cwd).trace →
      s = Selector.cssId "ferias-salarioBruto" ∧ v = "5000.00") ∧
    ((run_verification M cwd).err = none →
      ∃ l1 l2 l3 d2,
        (run_verification M cwd).trace
          = l1 ++ Event.checked d2 salarioSel true
              :: Event.fill salarioSel "5000.00"
              :: (l2 ++ Event.click calcBtnSel :: l3) ∧
        salarioSel = Selector.cssId "ferias-salarioBruto" ∧
        ∀ e ∈ resolve (setVal d2 salarioSel "5000.00") salarioSel,
          e.value = "5000.00") := by
  constructor
  · intro s v hmem
    have hbody : Event.fill s v ∈ (runCmds M cwd [] [] script).1 := by
      simp only [run_verification] at hmem
      rcases List.mem_append.mp hmem with h | h
      · exact h
      · simp at h
    have hall : ∀ c ∈ script, cmdFillOk c = true := by decide
    have hP : ∀ ev ∈ (runCmds M cwd [] [] script).1, fillSound ev :=
      runCmds_all M cwd fillSound script [] [] (by simp)
        (fun d2 c hc => stepOut_fill_sound M cwd d2 c (hall c hc))
    obtain ⟨hs, hv⟩ := hP _ hbody s v rfl
    exact ⟨hs.trans rfl, hv⟩
  · intro h
    obtain ⟨d0, e1, e2, e3, e4, d3, hL, hH, hr1, hb1, hr2, hb2, hr3, hb3, hr4, hb4,
      hd3, hV5, hV6, htr⟩ := run_success_shape M cwd h
    refine ⟨[Event.launch, Event.newPage, Event.goto (fileUrl cwd),
             Event.checked d0 pulseSel false,
             Event.checked d0 calcSectionSel true, Event.click calcSectionSel,
             Event.checked (M.clickEffect d0 e1) feriasSel true, Event.click feriasSel],
            [Event.checked (setVal (M.clickEffect (M.clickEffect d0 e1) e2)
                salarioSel "5000.00") calcBtnSel true],
            [Event.checked d3 resultsSel true, Event.checked d3 legalSel true,
             Event.screenshot resultsSel pngPath, Event.closeBrowser,
             Event.stopPlaywright],
            M.clickEffect (M.clickEffect d0 e1) e2, ?_, rfl,
            resolve_setVal_value _ _ _⟩
    rw [htr]
    simp [successTrace]

/-- Claim C4, witness: at the concrete well-formed page the ordered
check-fill-click shape is realised. -/
theorem C4_witness :
    ∃ l1 l2 l3 d2,
      (run_verification Mgood "d").trace
        = l1 ++ Event.checked d2 salarioSel true
            :: Event.fill salarioSel "5000.00"
            :: (l2 ++ Event.click calcBtnSel :: l3) ∧
      salarioSel = Selector.cssId "ferias-salarioBruto" ∧
      ∀ e ∈ resolve (setVal d2 salarioSel "5000.00") salarioSel,
        e.value = "5000.00" :=
  (C4_salary_filled_before_calculate Mgood "d").2 (by decide)

/-- Claim C7 (amended): exactly one Page is opened for the whole
interaction sequence, and every locator query recorded by a to-be-visible
check resolved to a unique, visible element before its step proceeded;
the loading-placeholder wait is the one exception the claim overlooks —
it is a hidden-wait, proceeding exactly when the query has no match or
its first match is not visible. -/
theorem C7_single_page_and_unique_visible (M : PageModel) (cwd : String) :
    ((run_verification M cwd).trace).filter isNewPage = [Event.newPage] ∧
    (∀ d s, Event.checked d s true ∈ (run_verification M cwd).trace →
      ∃ e, resolve d s = [e] ∧ e.visible = true) ∧
    (∀ d s, Event.checked d s false ∈ (run_verification M cwd).trace →
      s = pulseSel ∧
      (resolve d s = [] ∨ ∃ e tl, resolve d s = e :: tl ∧ e.visible = false)) := by
  have hallP : ∀ c ∈ script, cmdHiddenOnlyPulse c = true := by decide
  have hP : ∀ ev ∈ (runCmds M cwd [] [] script).1, checkedSound ev :=
    runCmds_all M cwd checkedSound script [] [] (by simp)
      (fun d2 c hc => stepOut_checked_sound M cwd d2 c (hallP c hc))
  refine ⟨?_, ?_, ?_⟩
  · simp only [run_verification]
    have hall : ∀ c ∈ Cmd.goto :: scriptTail, isNewPageCmd c = false := by decide
    rw [script_eq, runCmds_cons_ok _ _ _ _ Cmd.launch _ rfl,
        runCmds_cons_ok _ _ _ _ Cmd.newPage _ rfl,
        List.filter_append,
        runCmds_filter_none M cwd isNewPage _ _ _
          (fun d2 c hc => stepOut_events_no_newPage M cwd d2 c (hall c hc))]
    simp [stepOut, isNewPage, List.filter_append]
  · intro d s hmem
    have hbody : Event.checked d s true ∈ (runCmds M cwd [] [] script).1 := by
      simp only [run_verification] at hmem
      rcases List.mem_append.mp hmem with h | h
      · exact h
      · simp at h
    exact (hP _ hbody).1 d s rfl
  · intro d s hmem
    have hbody : Event.checked d s false ∈ (runCmds M cwd [] [] script).1 := by
      simp only [run_verification] at hmem
      rcases List.mem_append.mp hmem with h | h
      · exact h
      · simp at h
    exact (hP _ hbody).2 d s rfl

/-- Claim C7, counterexample to the claim as stated: in a successful
concrete run the loading-placeholder locator resolved to no element at all
— not to a unique visible element — yet its step proceeded and the run
completed. -/
theorem C7_counterexample :
    resolve [navSummary] pulseSel = [] ∧
    Event.checked [navSummary] pulseSel false ∈ (run_verification Mgood "d").trace ∧
    (run_verification Mgood "d").err = none := by
  decide

/-- Claim C7, witness: a recorded visible-check of the concrete run did
resolve to a unique visible element. -/
theorem C7_witness :
    ∃ e, resolve [navSummary] calcSectionSel = [e] ∧ e.visible = true :=
  (C7_single_page_and_unique_visible Mgood "d").2.1 [navSummary] calcSectionSel
    (by decide)

/-- Claim C8: a raising-free run records exactly one file write — a
screenshot scoped to the results container at the fixed relative path —
and applying the trace's writes to any starting file system overwrites
exactly that path, erroring on nothing and touching nothing else. -/
theorem C8_single_screenshot_write (M : PageModel) (cwd : String)
    (h : (run_verification M cwd).err = none) :
    writesOf (run_verification M cwd).trace = [pngPath] ∧
    Event.screenshot resultsSel pngPath ∈ (run_verification M cwd).trace ∧
    pngPath = "jules-scratch/verification/verification.png" ∧
    (∀ fs : String → Bool, applyWrites (run_verification M cwd).trace fs pngPath = true) ∧
    (∀ fs : String → Bool, ∀ q, q ≠ pngPath →
      applyWrites (run_verification M cwd).trace fs q = fs q) := by
  obtain ⟨d0, e1, e2, e3, e4, d3, _, _, _, _, _, _, _, _, _, _, _, _, _, htr⟩ :=
    run_success_shape M cwd h
  have hw : writesOf (run_verification M cwd).trace = [pngPath] := by
    rw [htr]
    simp [successTrace, writesOf]
  refine ⟨hw, ?_, rfl, ?_, ?_⟩
  · rw [htr]
    simp [successTrace]
  · intro fs
    rw [applyWrites, hw]
    simp [writeFile]
  · intro fs q hq
    rw [applyWrites, hw]
    simp [writeFile, hq]

/-- Claim C8, witness at the concrete well-formed page. -/
theorem C8_witness :
    writesOf (run_verification Mgood "d").trace = [pngPath] :=
  (C8_single_screenshot_write Mgood "d" (by decide)).1

end VerifyFooter
